import Mathlib

/-!
Verification of the accountant-report CSV generator
(src/scripts/generate_accountant_reports.py) and of the shared
validation-result contract described by the specification.

Modelling conventions:
* A scored transaction record (one element of the `results` array) is a
  `Record`.  Numeric JSON fields are rational numbers; a field that is
  absent from the JSON object, or explicitly `null`, is `none` (the script
  reads every such field through `dict.get` followed by `or`-defaulting,
  so absence and `null` are observationally identical to it).
* Truthiness flags (`is_rnd_candidate`, `fbt_implications`, ...) are `Bool`.
* A CSV cell is a `Cell`: a plain string, a raw number (or the empty cell
  when the value is absent), an integer count, or a currency-formatted
  number.  The `money` constructor abstracts the `$x,xxx.xx` rendering and
  carries the underlying amount.
* The Python list `sort`/`sorted` (Timsort, stable) with `reverse=True` is
  modelled by `List.insertionSort` with the reversed key order; both are
  stable sorts for the same total preorder, hence extensionally equal.
* Python dicts keep insertion order; `by_fy` and `by_cat` are association
  lists where a new key is appended at the end and an existing key is
  updated in place (`dictAdd`).
-/

namespace ATO

/-- One scored transaction record, as read by the report generator.
Numeric fields are `Option ℚ` (`none` models a missing key or `null`),
flags are `Bool` (Python truthiness), and `compliance_notes` is an
optional list of strings. -/
structure Record where
  financial_year : Option String
  transaction_date : Option String
  transaction_id : Option String
  supplier_name : Option String
  transaction_amount : Option ℚ
  transaction_description : Option String
  primary_category : Option String
  category_confidence : Option ℚ
  deduction_type : Option String
  claimable_amount : Option ℚ
  deduction_confidence : Option ℚ
  is_fully_deductible : Bool
  is_rnd_candidate : Bool
  rnd_confidence : Option ℚ
  rnd_reasoning : Option String
  rnd_activity_type : Option String
  meets_div355_criteria : Bool
  div355_outcome_unknown : Bool
  div355_systematic_approach : Bool
  div355_new_knowledge : Bool
  div355_scientific_method : Bool
  fbt_implications : Bool
  division7a_risk : Bool
  requires_documentation : Bool
  compliance_notes : Option (List String)
deriving DecidableEq

/-- One CSV cell.  `str` is a plain string, `num` a raw numeric value,
`nat` an integer (counts, the PRIORITY index), `money` a
currency-formatted amount carrying the underlying value. -/
inductive Cell where
  | str : String → Cell
  | num : ℚ → Cell
  | nat : Nat → Cell
  | money : ℚ → Cell
deriving DecidableEq

/-- A numeric field written directly to a CSV cell: the value when
present, the empty cell when the field is missing or null (Python
`csv.writer` renders both the default and `None` as the empty string). -/
def optNumCell (o : Option ℚ) : Cell :=
  match o with
  | some v => Cell.num v
  | none => Cell.str ""

/-- The `Yes`/`No` rendering of a truthiness flag. -/
def yesNo (b : Bool) : Cell := Cell.str (if b then "Yes" else "No")

/-- The `YES - REVIEW`/`No` rendering used for the FBT and Division 7A
flags in the master list. -/
def yesReview (b : Bool) : Cell := Cell.str (if b then "YES - REVIEW" else "No")

/-- Models the Python join of the compliance notes with a semicolon and a
space, with a missing or null list treated as empty. -/
def joinNotes (o : Option (List String)) : String :=
  String.intercalate "; " (o.getD [])

/-- Header row of the master transaction list. -/
def masterHeader : List Cell :=
  [Cell.str "Financial Year", Cell.str "Date", Cell.str "Transaction ID",
   Cell.str "Supplier", Cell.str "Amount", Cell.str "Description",
   Cell.str "Category", Cell.str "Category Confidence",
   Cell.str "Deduction Type", Cell.str "Claimable Amount",
   Cell.str "Fully Deductible", Cell.str "R&D Candidate",
   Cell.str "R&D Confidence", Cell.str "R&D Reasoning",
   Cell.str "FBT Risk", Cell.str "Div7A Risk",
   Cell.str "Requires Documentation", Cell.str "Compliance Notes"]

/-- One data row of the master transaction list, field for field as the
script writes it. -/
def masterRow (r : Record) : List Cell :=
  [Cell.str (r.financial_year.getD ""),
   Cell.str (r.transaction_date.getD ""),
   Cell.str (r.transaction_id.getD ""),
   Cell.str (r.supplier_name.getD ""),
   optNumCell r.transaction_amount,
   Cell.str ((r.transaction_description.getD "").take 100),
   Cell.str (r.primary_category.getD ""),
   optNumCell r.category_confidence,
   Cell.str (r.deduction_type.getD ""),
   optNumCell r.claimable_amount,
   yesNo r.is_fully_deductible,
   yesNo r.is_rnd_candidate,
   optNumCell r.rnd_confidence,
   Cell.str ((r.rnd_reasoning.getD "").take 150),
   yesReview r.fbt_implications,
   yesReview r.division7a_risk,
   yesNo r.requires_documentation,
   Cell.str ((joinNotes r.compliance_notes).take 200)]

/-- The master transaction list file: header then one row per input
record, in input order. -/
def masterRows (results : List Record) : List (List Cell) :=
  masterHeader :: results.map masterRow

/-- The claimable amount a record contributes, as the script reads it:
`r.get(claimable_amount) or 0` and `r.get(claimable_amount, 0)` — a
missing or null field counts as zero. -/
def claimOf (r : Record) : ℚ := r.claimable_amount.getD 0

/-- The transaction amount as the script reads it:
`r.get(transaction_amount, 0) or 0` — a missing or null field counts as
zero. -/
def amountOf (r : Record) : ℚ := r.transaction_amount.getD 0

/-- The high-value deduction list: records with claimable amount above
500, sorted by claimable amount descending (stable, as Python sort). -/
def high_value (results : List Record) : List Record :=
  List.insertionSort (fun a b => claimOf b ≤ claimOf a)
    (results.filter (fun r => 500 < claimOf r))

/-- Header row of the high-value deductions file. -/
def hvHeader : List Cell :=
  [Cell.str "PRIORITY", Cell.str "Financial Year", Cell.str "Date",
   Cell.str "Supplier", Cell.str "Amount", Cell.str "Claimable",
   Cell.str "Deduction Type", Cell.str "Category", Cell.str "Confidence",
   Cell.str "Transaction ID", Cell.str "Documentation Required",
   Cell.str "Notes"]

/-- One data row of the high-value deductions file, with its 1-based
priority index. -/
def hvRow (i : Nat) (r : Record) : List Cell :=
  [Cell.nat i,
   Cell.str (r.financial_year.getD ""),
   Cell.str (r.transaction_date.getD ""),
   Cell.str (r.supplier_name.getD ""),
   optNumCell r.transaction_amount,
   optNumCell r.claimable_amount,
   Cell.str (r.deduction_type.getD ""),
   Cell.str (r.primary_category.getD ""),
   optNumCell r.deduction_confidence,
   Cell.str (r.transaction_id.getD ""),
   yesNo r.requires_documentation,
   Cell.str ((joinNotes r.compliance_notes).take 150)]

/-- The high-value deductions file: header then one row per high-value
record, enumerated from 1. -/
def hvRows (results : List Record) : List (List Cell) :=
  hvHeader :: (List.enumFrom 1 (high_value results)).map (fun p => hvRow p.1 p.2)

/-- The R&D candidate list: records whose `is_rnd_candidate` flag is
truthy, sorted by transaction amount descending (missing or null amounts
sort as zero). -/
def rnd_list (results : List Record) : List Record :=
  List.insertionSort (fun a b => amountOf b ≤ amountOf a)
    (results.filter (fun r => r.is_rnd_candidate))

/-- Header row of the R&D candidates file. -/
def rndHeader : List Cell :=
  [Cell.str "Financial Year", Cell.str "Date", Cell.str "Supplier",
   Cell.str "Amount", Cell.str "Activity Type", Cell.str "R&D Confidence",
   Cell.str "Meets Div355", Cell.str "Outcome Unknown",
   Cell.str "Systematic", Cell.str "New Knowledge",
   Cell.str "Scientific Method", Cell.str "Reasoning",
   Cell.str "Transaction ID"]

/-- One data row of the R&D candidates file. -/
def rndRow (r : Record) : List Cell :=
  [Cell.str (r.financial_year.getD ""),
   Cell.str (r.transaction_date.getD ""),
   Cell.str (r.supplier_name.getD ""),
   optNumCell r.transaction_amount,
   Cell.str (r.rnd_activity_type.getD ""),
   optNumCell r.rnd_confidence,
   yesNo r.meets_div355_criteria,
   yesNo r.div355_outcome_unknown,
   yesNo r.div355_systematic_approach,
   yesNo r.div355_new_knowledge,
   yesNo r.div355_scientific_method,
   Cell.str ((r.rnd_reasoning.getD "").take 200),
   Cell.str (r.transaction_id.getD "")]

/-- The R&D candidates file. -/
def rndRows (results : List Record) : List (List Cell) :=
  rndHeader :: (rnd_list results).map rndRow

/-- The FBT review list: records whose `fbt_implications` flag is truthy,
in input order (no sort in the script). -/
def fbt_list (results : List Record) : List Record :=
  results.filter (fun r => r.fbt_implications)

/-- The Division 7A review list: records whose `division7a_risk` flag is
truthy, in input order. -/
def div7a_list (results : List Record) : List Record :=
  results.filter (fun r => r.division7a_risk)

/-- Header row shared by the FBT and Division 7A review files (the script
writes the same header in both). -/
def reviewHeader : List Cell :=
  [Cell.str "Financial Year", Cell.str "Date", Cell.str "Supplier",
   Cell.str "Amount", Cell.str "Category", Cell.str "Description",
   Cell.str "Compliance Notes", Cell.str "Transaction ID"]

/-- One data row of the FBT or Division 7A review files (the script
writes the same fields in both). -/
def reviewRow (r : Record) : List Cell :=
  [Cell.str (r.financial_year.getD ""),
   Cell.str (r.transaction_date.getD ""),
   Cell.str (r.supplier_name.getD ""),
   optNumCell r.transaction_amount,
   Cell.str (r.primary_category.getD ""),
   Cell.str ((r.transaction_description.getD "").take 100),
   Cell.str ((joinNotes r.compliance_notes).take 200),
   Cell.str (r.transaction_id.getD "")]

/-- The FBT review file. -/
def fbtRows (results : List Record) : List (List Cell) :=
  reviewHeader :: (fbt_list results).map reviewRow

/-- The Division 7A review file. -/
def div7aRows (results : List Record) : List (List Cell) :=
  reviewHeader :: (div7a_list results).map reviewRow

/-- Accumulator of the per-financial-year summary: transaction count,
running total of absolute transaction amounts, running total of claimable
amounts, and the three flagged-issue counts. -/
structure FYAcc where
  count : Nat
  total : ℚ
  claimable : ℚ
  rnd : Nat
  fbt : Nat
  div7a : Nat
deriving DecidableEq

/-- The zero accumulator a new financial-year key starts from. -/
def fyInit : FYAcc := ⟨0, 0, 0, 0, 0, 0⟩

/-- Folding one record into a financial-year accumulator, line for line
as the script: the total adds the absolute transaction amount, the
claimable total adds the signed claimable amount, the three counters
increment on truthy flags. -/
def fyAdd (a : FYAcc) (r : Record) : FYAcc :=
  { count := a.count + 1
    total := a.total + |amountOf r|
    claimable := a.claimable + claimOf r
    rnd := a.rnd + (if r.is_rnd_candidate then 1 else 0)
    fbt := a.fbt + (if r.fbt_implications then 1 else 0)
    div7a := a.div7a + (if r.division7a_risk then 1 else 0) }

/-- The grouping key of the per-financial-year summary:
`r.get(financial_year, Unknown)`. -/
def fyKey (r : Record) : String := r.financial_year.getD "Unknown"

/-- One update of an insertion-ordered dictionary (a Python dict modelled
as an association list): an existing key is updated in place, a new key
is appended at the end starting from `init`. -/
def dictAdd (add : β → Record → β) (init : β) :
    List (String × β) → String → Record → List (String × β)
  | [], k, r => [(k, add init r)]
  | (k', v) :: rest, k, r =>
    if k' = k then (k', add v r) :: rest
    else (k', v) :: dictAdd add init rest k r

/-- Association-list lookup (first binding wins, as in a Python dict). -/
def alookup : List (String × β) → String → Option β
  | [], _ => none
  | (k', v) :: rest, k => if k' = k then some v else alookup rest k

/-- Folding a record list into an insertion-ordered dictionary keyed by
`key`. -/
def dictFold (key : Record → String) (add : β → Record → β) (init : β)
    (results : List Record) : List (String × β) :=
  results.foldl (fun m r => dictAdd add init m (key r) r) []

/-- The `by_fy` dictionary of the script. -/
def by_fy (results : List Record) : List (String × FYAcc) :=
  dictFold fyKey fyAdd fyInit results

/-- Byte-wise (code-point) comparison of two character lists, the order
Python uses on strings. -/
def charListLe : List Char → List Char → Bool
  | [], _ => true
  | _ :: _, [] => false
  | a :: as, b :: bs =>
    if a.toNat < b.toNat then true
    else if b.toNat < a.toNat then false
    else charListLe as bs

/-- Code-point lexicographic string order, modelling the order of the
Python `sorted` builtin on the financial-year labels. -/
def strLe (a b : String) : Prop := charListLe a.data b.data = true

instance : DecidableRel strLe := fun a b =>
  inferInstanceAs (Decidable (charListLe a.data b.data = true))

/-- The financial-year keys of the summary, sorted ascending as
`sorted(by_fy.keys())`. -/
def sortedFyKeys (results : List Record) : List String :=
  List.insertionSort strLe ((by_fy results).map Prod.fst)

/-- Header row of the per-financial-year summary file. -/
def fyHeader : List Cell :=
  [Cell.str "Financial Year", Cell.str "Transaction Count",
   Cell.str "Total Amount", Cell.str "Claimable Amount",
   Cell.str "R&D Candidates", Cell.str "FBT Issues", Cell.str "Div7A Issues"]

/-- One data row of the per-financial-year summary; the two money cells
carry the amounts the script renders with the currency format. -/
def fyRow (fy : String) (d : FYAcc) : List Cell :=
  [Cell.str fy, Cell.nat d.count, Cell.money d.total,
   Cell.money d.claimable, Cell.nat d.rnd, Cell.nat d.fbt, Cell.nat d.div7a]

/-- The per-financial-year summary file: header, then one row per key of
`by_fy` in ascending key order.  The dictionary lookup always succeeds on
these keys; `fyInit` is the (never used) default the total translation
needs. -/
def fyRows (results : List Record) : List (List Cell) :=
  fyHeader :: (sortedFyKeys results).map
    (fun fy => fyRow fy ((alookup (by_fy results) fy).getD fyInit))

/-- Accumulator of the per-category summary. -/
structure CatAcc where
  count : Nat
  total : ℚ
  claimable : ℚ
deriving DecidableEq

/-- The zero accumulator a new category key starts from. -/
def catInit : CatAcc := ⟨0, 0, 0⟩

/-- Folding one record into a category accumulator: absolute amount into
the total, signed claimable amount into the claimable total. -/
def catAdd (a : CatAcc) (r : Record) : CatAcc :=
  { count := a.count + 1
    total := a.total + |amountOf r|
    claimable := a.claimable + claimOf r }

/-- The grouping key of the per-category summary:
`r.get(primary_category, Unknown)`. -/
def catKey (r : Record) : String := r.primary_category.getD "Unknown"

/-- The `by_cat` dictionary of the script. -/
def by_cat (results : List Record) : List (String × CatAcc) :=
  dictFold catKey catAdd catInit results

/-- The accumulated claimable amount of a category key, the sort key of
the per-category summary rows. -/
def catClaimOf (results : List Record) (k : String) : ℚ :=
  ((alookup (by_cat results) k).getD catInit).claimable

/-- The category keys sorted by accumulated claimable amount descending,
as `sorted(by_cat.keys(), key=..., reverse=True)` (stable). -/
def sortedCatKeys (results : List Record) : List String :=
  List.insertionSort (fun a b => catClaimOf results b ≤ catClaimOf results a)
    ((by_cat results).map Prod.fst)

/-- Header row of the per-category summary file. -/
def catHeader : List Cell :=
  [Cell.str "Category", Cell.str "Transaction Count",
   Cell.str "Total Amount", Cell.str "Claimable Amount"]

/-- One data row of the per-category summary. -/
def catRow (k : String) (d : CatAcc) : List Cell :=
  [Cell.str k, Cell.nat d.count, Cell.money d.total, Cell.money d.claimable]

/-- The per-category summary file. -/
def catRows (results : List Record) : List (List Cell) :=
  catHeader :: (sortedCatKeys results).map
    (fun k => catRow k ((alookup (by_cat results) k).getD catInit))

/-- The statistics dictionary the script returns. -/
structure ReportStats where
  total_transactions : Nat
  high_value : Nat
  rnd_candidates : Nat
  fbt_issues : Nat
  div7a_issues : Nat
deriving DecidableEq

/-- The filename the script builds for one report:
`output_dir/company_name` followed by the per-report tail. -/
def fileName (output_dir company_name tail : String) : String :=
  output_dir ++ "/" ++ company_name ++ tail

/-- The full outcome of one `generate_csv_reports` call: the seven named
CSV files, the returned statistics, and the caller-visible state of the
`results` argument after the call (the script only reads the records and
sorts fresh filtered copies, so the list comes back unchanged). -/
structure Reports where
  files : List (String × List (List Cell))
  stats : ReportStats
  results_after : List Record
deriving DecidableEq

/-- The report generator: builds the seven CSV files for one organization
and returns the statistics dictionary. -/
def generate_csv_reports (results : List Record)
    (company_name output_dir : String) : Reports :=
  { files :=
      [(fileName output_dir company_name "_All_Transactions.csv", masterRows results),
       (fileName output_dir company_name "_High_Value_Deductions.csv", hvRows results),
       (fileName output_dir company_name "_RnD_Candidates.csv", rndRows results),
       (fileName output_dir company_name "_FBT_Review_Required.csv", fbtRows results),
       (fileName output_dir company_name "_Division7A_Review.csv", div7aRows results),
       (fileName output_dir company_name "_Summary_By_FY.csv", fyRows results),
       (fileName output_dir company_name "_By_Category.csv", catRows results)]
    stats :=
      { total_transactions := results.length
        high_value := (high_value results).length
        rnd_candidates := (rnd_list results).length
        fbt_issues := (fbt_list results).length
        div7a_issues := (div7a_list results).length }
    results_after := results }

/-- A parsed input JSON document, as far as the loader looks at it:
either it has a `results` array or it does not. -/
structure JsonDoc where
  results : Option (List Record)

/-- The loader after parsing: `data.get(results, [])` — a document
without a `results` key yields the empty list. -/
def load_json (doc : JsonDoc) : List Record := doc.results.getD []

/-- The shared validation result shape every validator returns. -/
structure ValidationResult where
  valid : Bool
  issues : List String
  warnings : List String
  fix_instructions : Option String
deriving DecidableEq

/-- Modelled from the spec: the validator sources are not under src/, so
the common `validate(input) -> ValidationResult` assembly is taken from
the specification — a rule set evaluates the input to a pair of issue and
warning lists, `valid` is true exactly when the issue list is empty, and
`fix_instructions` is generated from the issues exactly when some issue
exists. -/
def runValidator (evalRules : α → List String × List String)
    (remediate : List String → String) (input : α) : ValidationResult :=
  let p := evalRules input
  { valid := p.1.isEmpty
    issues := p.1
    warnings := p.2
    fix_instructions := if p.1.isEmpty then none else some (remediate p.1) }

/-! ### Dictionary lemmas -/

theorem alookup_dictAdd (add : β → Record → β) (init : β)
    (m : List (String × β)) (k y : String) (r : Record) :
    alookup (dictAdd add init m k r) y =
      if k = y then some (add ((alookup m k).getD init) r) else alookup m y := by
  induction m with
  | nil =>
    by_cases h : k = y <;> simp [dictAdd, alookup, h]
  | cons p tl ih =>
    obtain ⟨a, v⟩ := p
    simp only [dictAdd]
    by_cases h1 : a = k
    · subst h1
      simp only [if_pos rfl]
      by_cases h2 : a = y
      · subst h2
        simp [alookup]
      · simp [alookup, h2]
    · simp only [if_neg h1]
      by_cases h2 : k = y
      · subst h2
        simp [alookup, h1, ih]
      · simp [alookup, ih, h2]

theorem keys_dictAdd (add : β → Record → β) (init : β)
    (m : List (String × β)) (k : String) (r : Record) :
    (dictAdd add init m k r).map Prod.fst =
      if k ∈ m.map Prod.fst then m.map Prod.fst else m.map Prod.fst ++ [k] := by
  induction m with
  | nil => simp [dictAdd]
  | cons p tl ih =>
    obtain ⟨a, v⟩ := p
    by_cases h1 : a = k
    · subst h1
      simp [dictAdd]
    · by_cases h2 : k ∈ tl.map Prod.fst <;>
        simp [dictAdd, h1, Ne.symm h1, h2, ih]

theorem nodup_keys_dictAdd (add : β → Record → β) (init : β)
    (m : List (String × β)) (k : String) (r : Record)
    (h : (m.map Prod.fst).Nodup) :
    ((dictAdd add init m k r).map Prod.fst).Nodup := by
  rw [keys_dictAdd]
  by_cases hk : k ∈ m.map Prod.fst
  · simpa [hk] using h
  · simp only [hk, if_false]
    rw [List.nodup_append]
    refine ⟨h, List.nodup_singleton k, ?_⟩
    intro a ha hak
    rw [List.mem_singleton] at hak
    exact hk (hak ▸ ha)

theorem mem_keys_dictAdd (add : β → Record → β) (init : β)
    (m : List (String × β)) (k y : String) (r : Record) :
    y ∈ (dictAdd add init m k r).map Prod.fst ↔ y ∈ m.map Prod.fst ∨ y = k := by
  rw [keys_dictAdd]
  by_cases hk : k ∈ m.map Prod.fst
  · simp only [hk, if_true]
    constructor
    · exact Or.inl
    · rintro (h | rfl)
      · exact h
      · exact hk
  · simp [hk]

theorem alookup_eq_some_of_mem (m : List (String × β)) (y : String) (v : β)
    (hnd : (m.map Prod.fst).Nodup) (hm : (y, v) ∈ m) :
    alookup m y = some v := by
  induction m with
  | nil => cases hm
  | cons p tl ih =>
    obtain ⟨a, w⟩ := p
    simp only [List.map_cons, List.nodup_cons] at hnd
    rcases List.mem_cons.mp hm with h | h
    · obtain ⟨rfl, rfl⟩ := Prod.mk.injEq .. ▸ h
      simp [alookup]
    · have hay : a ≠ y := by
        rintro rfl
        exact hnd.1 (List.mem_map_of_mem Prod.fst h)
      simp [alookup, hay, ih hnd.2 h]

theorem alookup_dictFold (key : Record → String) (add : β → Record → β)
    (init : β) (rs : List Record) (m : List (String × β)) (y : String) :
    alookup (rs.foldl (fun m r => dictAdd add init m (key r) r) m) y =
      match alookup m y with
      | some v => some ((rs.filter (fun r => key r = y)).foldl add v)
      | none =>
        if (rs.filter (fun r => key r = y)).isEmpty then none
        else some ((rs.filter (fun r => key r = y)).foldl add init) := by
  induction rs generalizing m with
  | nil => cases h : alookup m y <;> simp [h]
  | cons r rs ih =>
    simp only [List.foldl_cons]
    rw [ih, alookup_dictAdd]
    by_cases h : key r = y
    · simp only [h, if_true, List.filter_cons, decide_eq_true_eq, if_pos h]
      cases hm : alookup m y <;> simp [hm, h]
    · have hf : List.filter (fun r => decide (key r = y)) (r :: rs) =
          List.filter (fun r => decide (key r = y)) rs := by
        simp [List.filter_cons, h]
      rw [if_neg h, hf]

theorem keys_dictFold_nodup (key : Record → String) (add : β → Record → β)
    (init : β) (rs : List Record) (m : List (String × β))
    (h : (m.map Prod.fst).Nodup) :
    (((rs.foldl (fun m r => dictAdd add init m (key r) r) m)).map Prod.fst).Nodup := by
  induction rs generalizing m with
  | nil => exact h
  | cons r rs ih =>
    exact ih _ (nodup_keys_dictAdd add init m (key r) r h)

theorem mem_keys_dictFold (key : Record → String) (add : β → Record → β)
    (init : β) (rs : List Record) (m : List (String × β)) (y : String) :
    y ∈ ((rs.foldl (fun m r => dictAdd add init m (key r) r) m)).map Prod.fst ↔
      y ∈ m.map Prod.fst ∨ y ∈ rs.map key := by
  induction rs generalizing m with
  | nil => simp
  | cons r rs ih =>
    simp only [List.foldl_cons, List.map_cons, List.mem_cons]
    rw [ih, mem_keys_dictAdd]
    constructor
    · rintro ((h | rfl) | h)
      · exact Or.inl h
      · exact Or.inr (Or.inl rfl)
      · exact Or.inr (Or.inr h)
    · rintro (h | rfl | h)
      · exact Or.inl (Or.inl h)
      · exact Or.inl (Or.inr rfl)
      · exact Or.inr h

theorem by_fy_keys_nodup (results : List Record) :
    ((by_fy results).map Prod.fst).Nodup :=
  keys_dictFold_nodup fyKey fyAdd fyInit results [] (by simp)

theorem mem_by_fy_keys (results : List Record) (y : String) :
    y ∈ (by_fy results).map Prod.fst ↔ y ∈ results.map fyKey := by
  have := mem_keys_dictFold fyKey fyAdd fyInit results [] y
  simpa [by_fy, dictFold] using this

theorem alookup_by_fy (results : List Record) (y : String) :
    alookup (by_fy results) y =
      if (results.filter (fun r => fyKey r = y)).isEmpty then none
      else some ((results.filter (fun r => fyKey r = y)).foldl fyAdd fyInit) := by
  have := alookup_dictFold fyKey fyAdd fyInit results [] y
  simpa [by_fy, dictFold, alookup] using this

theorem by_cat_keys_nodup (results : List Record) :
    ((by_cat results).map Prod.fst).Nodup :=
  keys_dictFold_nodup catKey catAdd catInit results [] (by simp)

theorem mem_by_cat_keys (results : List Record) (y : String) :
    y ∈ (by_cat results).map Prod.fst ↔ y ∈ results.map catKey := by
  have := mem_keys_dictFold catKey catAdd catInit results [] y
  simpa [by_cat, dictFold] using this

theorem alookup_by_cat (results : List Record) (y : String) :
    alookup (by_cat results) y =
      if (results.filter (fun r => catKey r = y)).isEmpty then none
      else some ((results.filter (fun r => catKey r = y)).foldl catAdd catInit) := by
  have := alookup_dictFold catKey catAdd catInit results [] y
  simpa [by_cat, dictFold, alookup] using this

/-! ### Closed forms of the accumulator folds -/

theorem foldl_fyAdd (rs : List Record) (a : FYAcc) :
    rs.foldl fyAdd a =
      { count := a.count + rs.length
        total := a.total + (rs.map (fun r => |amountOf r|)).sum
        claimable := a.claimable + (rs.map claimOf).sum
        rnd := a.rnd + rs.countP (fun r => r.is_rnd_candidate)
        fbt := a.fbt + rs.countP (fun r => r.fbt_implications)
        div7a := a.div7a + rs.countP (fun r => r.division7a_risk) } := by
  induction rs generalizing a with
  | nil => simp
  | cons r rs ih =>
    simp only [List.foldl_cons, ih, fyAdd, List.length_cons, List.map_cons,
      List.sum_cons, List.countP_cons, FYAcc.mk.injEq]
    refine ⟨by omega, by ring, by ring, ?_, ?_, ?_⟩
    · cases r.is_rnd_candidate <;> simp
      all_goals omega
    · cases r.fbt_implications <;> simp
      all_goals omega
    · cases r.division7a_risk <;> simp
      all_goals omega

theorem foldl_catAdd (rs : List Record) (a : CatAcc) :
    rs.foldl catAdd a =
      { count := a.count + rs.length
        total := a.total + (rs.map (fun r => |amountOf r|)).sum
        claimable := a.claimable + (rs.map claimOf).sum } := by
  induction rs generalizing a with
  | nil => simp
  | cons r rs ih =>
    simp only [List.foldl_cons, ih, catAdd, List.length_cons, List.map_cons,
      List.sum_cons, CatAcc.mk.injEq]
    exact ⟨by omega, by ring, by ring⟩

/-! ### Helper facts about the sorted views -/

theorem high_value_perm (results : List Record) :
    (high_value results).Perm (results.filter (fun r => 500 < claimOf r)) :=
  List.perm_insertionSort _ _

theorem rnd_list_perm (results : List Record) :
    (rnd_list results).Perm (results.filter (fun r => r.is_rnd_candidate)) :=
  List.perm_insertionSort _ _

theorem fileName_ne (d c : String) {s t : String} (h : s ≠ t) :
    fileName d c s ≠ fileName d c t := by
  intro he
  apply h
  have hd := congrArg String.data he
  simp only [fileName, String.data_append, List.append_assoc] at hd
  have h1 := List.append_cancel_left hd
  have h2 := List.append_cancel_left h1
  have h3 := List.append_cancel_left h2
  exact String.ext h3

/-! ### Sample records used by the concrete witnesses -/

/-- A high-value R&D-candidate record with every field populated. -/
def rEx1 : Record :=
  { financial_year := some "FY2023-24"
    transaction_date := some "2023-08-01"
    transaction_id := some "T1"
    supplier_name := some "Acme"
    transaction_amount := some 1000
    transaction_description := some "laptop"
    primary_category := some "IT"
    category_confidence := some 90
    deduction_type := some "equipment"
    claimable_amount := some 800
    deduction_confidence := some 80
    is_fully_deductible := true
    is_rnd_candidate := true
    rnd_confidence := some 75
    rnd_reasoning := some "experimental build"
    rnd_activity_type := some "core"
    meets_div355_criteria := true
    div355_outcome_unknown := true
    div355_systematic_approach := true
    div355_new_knowledge := true
    div355_scientific_method := true
    fbt_implications := false
    division7a_risk := false
    requires_documentation := true
    compliance_notes := some ["keep receipt"]
  }

/-- A refund record: negative amount, no financial year, flagged for FBT
and Division 7A review. -/
def rEx2 : Record :=
  { financial_year := none
    transaction_date := some "2024-01-05"
    transaction_id := some "T2"
    supplier_name := some "Refunds Ltd"
    transaction_amount := some (-50)
    transaction_description := none
    primary_category := some "Travel"
    category_confidence := none
    deduction_type := none
    claimable_amount := some 600
    deduction_confidence := none
    is_fully_deductible := false
    is_rnd_candidate := false
    rnd_confidence := none
    rnd_reasoning := none
    rnd_activity_type := none
    meets_div355_criteria := false
    div355_outcome_unknown := false
    div355_systematic_approach := false
    div355_new_knowledge := false
    div355_scientific_method := false
    fbt_implications := true
    division7a_risk := true
    requires_documentation := false
    compliance_notes := none
  }

/-- A record with no claimable amount at all. -/
def rEx3 : Record :=
  { financial_year := some "FY2023-24"
    transaction_date := some "2023-09-09"
    transaction_id := some "T3"
    supplier_name := some "Cafe"
    transaction_amount := some 20
    transaction_description := some "coffee"
    primary_category := some "Meals"
    category_confidence := some 55
    deduction_type := none
    claimable_amount := none
    deduction_confidence := none
    is_fully_deductible := false
    is_rnd_candidate := false
    rnd_confidence := none
    rnd_reasoning := none
    rnd_activity_type := none
    meets_div355_criteria := false
    div355_outcome_unknown := false
    div355_systematic_approach := false
    div355_new_knowledge := false
    div355_scientific_method := false
    fbt_implications := false
    division7a_risk := false
    requires_documentation := false
    compliance_notes := some []
  }

/-! ### Claim theorems -/

/-- C1: for every ValidationResult returned by a validator, `valid` is
true exactly when `issues` is empty, `fix_instructions` is present
exactly when `issues` is non-empty, and the warnings component never
affects `valid`. -/
theorem validationResult_contract {α : Type} (evalRules : α → List String × List String)
    (warnRules : α → List String) (remediate : List String → String) (input : α) :
    ((runValidator evalRules remediate input).valid = true ↔
      (runValidator evalRules remediate input).issues = []) ∧
    ((runValidator evalRules remediate input).fix_instructions.isSome = true ↔
      (runValidator evalRules remediate input).issues ≠ []) ∧
    (runValidator (fun i => ((evalRules i).1, warnRules i)) remediate input).valid =
      (runValidator evalRules remediate input).valid := by
  refine ⟨?_, ?_, rfl⟩
  · simp [runValidator, List.isEmpty_iff]
  · by_cases h : (evalRules input).1 = [] <;>
      simp [runValidator, List.isEmpty_iff, h]

/-- C1 witness: a concrete run with one issue carries fix instructions. -/
theorem validationResult_contract_witness :
    (runValidator (fun _ : Unit => (["missing header"], ["w"]))
      (fun _ => "add a header row") ()).fix_instructions.isSome = true :=
  (validationResult_contract (fun _ : Unit => (["missing header"], ["w"]))
      (fun _ => []) (fun _ => "add a header row") ()).2.1.mpr (by decide)

/-- C2: the high-value deductions file holds exactly the records with
claimable amount above 500 (missing or null claimable amounts excluded),
one row per record, ordered by claimable amount descending. -/
theorem high_value_correct (results : List Record) (c d : String) :
    (high_value results).Perm (results.filter (fun r => 500 < claimOf r)) ∧
    (high_value results).Sorted (fun a b => claimOf b ≤ claimOf a) ∧
    (∀ r ∈ high_value results, ∃ v, r.claimable_amount = some v ∧ 500 < v) ∧
    hvRows results =
      hvHeader :: (List.enumFrom 1 (high_value results)).map (fun p => hvRow p.1 p.2) ∧
    (hvRows results).length = (high_value results).length + 1 ∧
    (fileName d c "_High_Value_Deductions.csv", hvRows results) ∈
      (generate_csv_reports results c d).files := by
  refine ⟨high_value_perm results, ?_, ?_, rfl, by simp [hvRows], by simp [generate_csv_reports]⟩
  · haveI : IsTotal Record (fun a b => claimOf b ≤ claimOf a) :=
      ⟨fun a b => le_total (claimOf b) (claimOf a)⟩
    haveI : IsTrans Record (fun a b => claimOf b ≤ claimOf a) :=
      ⟨fun _ _ _ hab hbc => le_trans hbc hab⟩
    exact List.sorted_insertionSort _ _
  · intro r hr
    have hm := (high_value_perm results).subset hr
    have h500 : 500 < claimOf r := by
      have := (List.mem_filter.mp hm).2
      simpa using this
    cases hv : r.claimable_amount with
    | none =>
      rw [claimOf, hv] at h500
      norm_num at h500
    | some v =>
      refine ⟨v, rfl, ?_⟩
      rwa [claimOf, hv] at h500

/-- C2 witness: on a concrete list the high-value view is sorted and holds
a concrete qualifying record. -/
theorem high_value_correct_witness :
    (high_value [rEx3, rEx2, rEx1]).Sorted (fun a b => claimOf b ≤ claimOf a) ∧
    (∃ v, rEx1.claimable_amount = some v ∧ 500 < v) :=
  ⟨(high_value_correct [rEx3, rEx2, rEx1] "DRQ" "out").2.1,
   (high_value_correct [rEx3, rEx2, rEx1] "DRQ" "out").2.2.1 rEx1 (by decide)⟩

/-- C3: the R&D candidates file holds exactly the records whose
`is_rnd_candidate` flag is truthy, one row per record, ranked by
transaction amount descending, a missing or null amount ordering as
zero. -/
theorem rnd_candidates_correct (results : List Record) (c d : String) :
    (rnd_list results).Perm (results.filter (fun r => r.is_rnd_candidate)) ∧
    (rnd_list results).Sorted (fun a b => amountOf b ≤ amountOf a) ∧
    (∀ r ∈ rnd_list results, r.is_rnd_candidate = true) ∧
    (∀ r : Record, r.transaction_amount = none → amountOf r = 0) ∧
    rndRows results = rndHeader :: (rnd_list results).map rndRow ∧
    (rndRows results).length = (rnd_list results).length + 1 ∧
    (fileName d c "_RnD_Candidates.csv", rndRows results) ∈
      (generate_csv_reports results c d).files := by
  refine ⟨rnd_list_perm results, ?_, ?_, ?_, rfl, by simp [rndRows], by simp [generate_csv_reports]⟩
  · haveI : IsTotal Record (fun a b => amountOf b ≤ amountOf a) :=
      ⟨fun a b => le_total (amountOf b) (amountOf a)⟩
    haveI : IsTrans Record (fun a b => amountOf b ≤ amountOf a) :=
      ⟨fun _ _ _ hab hbc => le_trans hbc hab⟩
    exact List.sorted_insertionSort _ _
  · intro r hr
    have hm := (rnd_list_perm results).subset hr
    simpa using (List.mem_filter.mp hm).2
  · intro r hr
    rw [amountOf, hr]
    rfl

/-- C3 witness: on a concrete list the R&D view is sorted and holds only
flagged records. -/
theorem rnd_candidates_correct_witness :
    (rnd_list [rEx3, rEx2, rEx1]).Sorted (fun a b => amountOf b ≤ amountOf a) ∧
    rEx1.is_rnd_candidate = true :=
  ⟨(rnd_candidates_correct [rEx3, rEx2, rEx1] "DRQ" "out").2.1,
   (rnd_candidates_correct [rEx3, rEx2, rEx1] "DRQ" "out").2.2.1 rEx1 (by decide)⟩

/-- C6: one call writes exactly seven CSV files with seven distinct
names: master list (one row per input record, in input order),
high-value, R&D, FBT review, Division 7A review, per-year summary, and
per-category summary. -/
theorem seven_reports (results : List Record) (c d : String) :
    (generate_csv_reports results c d).files.length = 7 ∧
    ((generate_csv_reports results c d).files.map Prod.fst).Nodup ∧
    (generate_csv_reports results c d).files =
      [(fileName d c "_All_Transactions.csv", masterRows results),
       (fileName d c "_High_Value_Deductions.csv", hvRows results),
       (fileName d c "_RnD_Candidates.csv", rndRows results),
       (fileName d c "_FBT_Review_Required.csv", fbtRows results),
       (fileName d c "_Division7A_Review.csv", div7aRows results),
       (fileName d c "_Summary_By_FY.csv", fyRows results),
       (fileName d c "_By_Category.csv", catRows results)] ∧
    masterRows results = masterHeader :: results.map masterRow := by
  refine ⟨rfl, ?_, rfl, rfl⟩
  simp only [generate_csv_reports, List.map_cons, List.map_nil, List.nodup_cons,
    List.mem_cons, List.not_mem_nil, or_false, not_or, List.nodup_nil, and_true]
  and_intros
  all_goals first
    | exact fileName_ne d c (by decide)
    | decide

/-- C6 witness: the concrete empty-input call produces the seven files. -/
theorem seven_reports_witness :
    (generate_csv_reports [] "DRQ" "out").files.length = 7 :=
  (seven_reports [] "DRQ" "out").1

/-- C7: the generator applies no validation rule and leaves its input
untouched: the results list comes back unchanged, the master file
reflects the input in input order, and the two sorted views are
permutations of fresh filtered lists. -/
theorem no_input_mutation (results : List Record) (c d : String) :
    (generate_csv_reports results c d).results_after = results ∧
    masterRows results = masterHeader :: results.map masterRow ∧
    (high_value results).Perm (results.filter (fun r => 500 < claimOf r)) ∧
    (rnd_list results).Perm (results.filter (fun r => r.is_rnd_candidate)) :=
  ⟨rfl, rfl, high_value_perm results, rnd_list_perm results⟩

/-- C7 witness: a concrete call returns its input list unchanged. -/
theorem no_input_mutation_witness :
    (generate_csv_reports [rEx1, rEx2] "DRQ" "out").results_after = [rEx1, rEx2] :=
  (no_input_mutation [rEx1, rEx2] "DRQ" "out").1

/-- C8: the generator is deterministic — equal inputs give identical
files and statistics. -/
theorem generate_deterministic (r1 r2 : List Record) (c1 c2 d1 d2 : String)
    (hr : r1 = r2) (hc : c1 = c2) (hd : d1 = d2) :
    generate_csv_reports r1 c1 d1 = generate_csv_reports r2 c2 d2 := by
  subst hr; subst hc; subst hd; rfl

/-- C8 witness: two identical concrete runs coincide. -/
theorem generate_deterministic_witness :
    generate_csv_reports [rEx1, rEx2, rEx3] "DRQ" "out" =
      generate_csv_reports [rEx1, rEx2, rEx3] "DRQ" "out" :=
  generate_deterministic [rEx1, rEx2, rEx3] [rEx1, rEx2, rEx3]
    "DRQ" "DRQ" "out" "out" rfl rfl rfl

theorem filter_ne_nil_of_mem_map {key : Record → String} {results : List Record}
    {y : String} (h : y ∈ results.map key) :
    results.filter (fun r => key r = y) ≠ [] := by
  obtain ⟨r, hrmem, hrkey⟩ := List.mem_map.mp h
  intro h0
  have hr : r ∈ results.filter (fun r => key r = y) :=
    List.mem_filter.mpr ⟨hrmem, by simp [hrkey]⟩
  rw [h0] at hr
  exact List.not_mem_nil r hr

/-- C4: the per-financial-year summary has exactly one row per distinct
financial-year value among the records (a missing field grouping under
Unknown), and the row of a year carries its record count, amount total,
claimable total, and the three flagged-issue counts. -/
theorem fy_summary_correct (results : List Record) (c d : String) :
    (sortedFyKeys results).Nodup ∧
    (∀ y : String, y ∈ sortedFyKeys results ↔ y ∈ results.map fyKey) ∧
    (∀ y : String, y ∈ sortedFyKeys results →
      (alookup (by_fy results) y).getD fyInit =
        { count := (results.filter (fun r => fyKey r = y)).length
          total := ((results.filter (fun r => fyKey r = y)).map (fun r => |amountOf r|)).sum
          claimable := ((results.filter (fun r => fyKey r = y)).map claimOf).sum
          rnd := (results.filter (fun r => fyKey r = y)).countP (fun r => r.is_rnd_candidate)
          fbt := (results.filter (fun r => fyKey r = y)).countP (fun r => r.fbt_implications)
          div7a := (results.filter (fun r => fyKey r = y)).countP (fun r => r.division7a_risk) }) ∧
    fyRows results = fyHeader :: (sortedFyKeys results).map
      (fun y => fyRow y ((alookup (by_fy results) y).getD fyInit)) ∧
    (fileName d c "_Summary_By_FY.csv", fyRows results) ∈
      (generate_csv_reports results c d).files := by
  have hperm := List.perm_insertionSort strLe ((by_fy results).map Prod.fst)
  have hmemiff : ∀ y : String, y ∈ sortedFyKeys results ↔ y ∈ results.map fyKey := by
    intro y
    rw [sortedFyKeys, hperm.mem_iff, mem_by_fy_keys]
  refine ⟨hperm.symm.nodup (by_fy_keys_nodup results), hmemiff, ?_,
    rfl, by simp [generate_csv_reports]⟩
  intro y hy
  have hne := filter_ne_nil_of_mem_map ((hmemiff y).mp hy)
  have hie : ¬((results.filter (fun r => fyKey r = y)).isEmpty = true) := by
    simpa [List.isEmpty_iff] using hne
  rw [alookup_by_fy, if_neg hie, Option.getD_some, foldl_fyAdd]
  simp [fyInit]

/-- C4 witness: the summary row of the concrete year FY2023-24 on a
concrete input. -/
theorem fy_summary_correct_witness :
    (alookup (by_fy [rEx1]) "FY2023-24").getD fyInit =
      { count := ([rEx1].filter (fun r => fyKey r = "FY2023-24")).length
        total := (([rEx1].filter (fun r => fyKey r = "FY2023-24")).map (fun r => |amountOf r|)).sum
        claimable := (([rEx1].filter (fun r => fyKey r = "FY2023-24")).map claimOf).sum
        rnd := ([rEx1].filter (fun r => fyKey r = "FY2023-24")).countP (fun r => r.is_rnd_candidate)
        fbt := ([rEx1].filter (fun r => fyKey r = "FY2023-24")).countP (fun r => r.fbt_implications)
        div7a := ([rEx1].filter (fun r => fyKey r = "FY2023-24")).countP (fun r => r.division7a_risk) } :=
  (fy_summary_correct [rEx1] "DRQ" "out").2.2.1 "FY2023-24" (by decide)

/-- C5: the per-category summary has one row per distinct primary
category (a missing field grouping under Unknown), its rows ordered by
the accumulated claimable amount of the category, descending. -/
theorem cat_summary_correct (results : List Record) (c d : String) :
    (sortedCatKeys results).Nodup ∧
    (∀ k : String, k ∈ sortedCatKeys results ↔ k ∈ results.map catKey) ∧
    (sortedCatKeys results).Sorted
      (fun a b => catClaimOf results b ≤ catClaimOf results a) ∧
    (∀ k : String, k ∈ sortedCatKeys results →
      (alookup (by_cat results) k).getD catInit =
        { count := (results.filter (fun r => catKey r = k)).length
          total := ((results.filter (fun r => catKey r = k)).map (fun r => |amountOf r|)).sum
          claimable := ((results.filter (fun r => catKey r = k)).map claimOf).sum }) ∧
    catRows results = catHeader :: (sortedCatKeys results).map
      (fun k => catRow k ((alookup (by_cat results) k).getD catInit)) ∧
    (fileName d c "_By_Category.csv", catRows results) ∈
      (generate_csv_reports results c d).files := by
  have hperm := List.perm_insertionSort
    (fun a b => catClaimOf results b ≤ catClaimOf results a)
    ((by_cat results).map Prod.fst)
  have hmemiff : ∀ k : String, k ∈ sortedCatKeys results ↔ k ∈ results.map catKey := by
    intro k
    rw [sortedCatKeys, hperm.mem_iff, mem_by_cat_keys]
  refine ⟨hperm.symm.nodup (by_cat_keys_nodup results), hmemiff, ?_, ?_,
    rfl, by simp [generate_csv_reports]⟩
  · haveI : IsTotal String (fun a b => catClaimOf results b ≤ catClaimOf results a) :=
      ⟨fun a b => le_total (catClaimOf results b) (catClaimOf results a)⟩
    haveI : IsTrans String (fun a b => catClaimOf results b ≤ catClaimOf results a) :=
      ⟨fun _ _ _ hab hbc => le_trans hbc hab⟩
    exact List.sorted_insertionSort _ _
  · intro k hk
    have hne := filter_ne_nil_of_mem_map ((hmemiff k).mp hk)
    have hie : ¬((results.filter (fun r => catKey r = k)).isEmpty = true) := by
      simpa [List.isEmpty_iff] using hne
    rw [alookup_by_cat, if_neg hie, Option.getD_some, foldl_catAdd]
    simp [catInit]

/-- C5 witness: the summary row of the concrete category IT on a
concrete input. -/
theorem cat_summary_correct_witness :
    (alookup (by_cat [rEx1]) "IT").getD catInit =
      { count := ([rEx1].filter (fun r => catKey r = "IT")).length
        total := (([rEx1].filter (fun r => catKey r = "IT")).map (fun r => |amountOf r|)).sum
        claimable := (([rEx1].filter (fun r => catKey r = "IT")).map claimOf).sum } :=
  (cat_summary_correct [rEx1] "DRQ" "out").2.2.2.1 "IT" (by decide)

theorem fyTotal_eq (rs : List Record) (y : String) :
    ((alookup (by_fy rs) y).getD fyInit).total =
      ((rs.filter (fun r => fyKey r = y)).map (fun r => |amountOf r|)).sum := by
  rw [alookup_by_fy]
  by_cases h : (rs.filter (fun r => fyKey r = y)).isEmpty = true
  · rw [if_pos h]
    rw [List.isEmpty_iff] at h
    rw [h]
    simp [fyInit]
  · rw [if_neg h, Option.getD_some, foldl_fyAdd]
    simp [fyInit]

/-- C9: in both summaries the Total Amount column adds the absolute
values of the transaction amounts — appending a refund (negative amount)
record raises the total of its year by the magnitude of the amount —
while the Claimable Amount column adds signed claimable amounts. -/
theorem summary_totals_use_abs (results : List Record) :
    (∀ y a, (y, a) ∈ by_fy results →
      a.total = ((results.filter (fun r => fyKey r = y)).map (fun r => |amountOf r|)).sum ∧
      a.claimable = ((results.filter (fun r => fyKey r = y)).map claimOf).sum) ∧
    (∀ k a, (k, a) ∈ by_cat results →
      a.total = ((results.filter (fun r => catKey r = k)).map (fun r => |amountOf r|)).sum ∧
      a.claimable = ((results.filter (fun r => catKey r = k)).map claimOf).sum) ∧
    (∀ (rs : List Record) (r : Record) (v : ℚ),
      r.transaction_amount = some v → v < 0 →
      ((alookup (by_fy (rs ++ [r])) (fyKey r)).getD fyInit).total =
        ((alookup (by_fy rs) (fyKey r)).getD fyInit).total + (-v)) := by
  refine ⟨?_, ?_, ?_⟩
  · intro y a hmem
    have hl := alookup_eq_some_of_mem _ y a (by_fy_keys_nodup results) hmem
    rw [alookup_by_fy] at hl
    by_cases h : (results.filter (fun r => fyKey r = y)).isEmpty = true
    · rw [if_pos h] at hl
      cases hl
    · rw [if_neg h] at hl
      obtain rfl := (Option.some.injEq ..).mp hl
      rw [foldl_fyAdd]
      simp [fyInit]
  · intro k a hmem
    have hl := alookup_eq_some_of_mem _ k a (by_cat_keys_nodup results) hmem
    rw [alookup_by_cat] at hl
    by_cases h : (results.filter (fun r => catKey r = k)).isEmpty = true
    · rw [if_pos h] at hl
      cases hl
    · rw [if_neg h] at hl
      obtain rfl := (Option.some.injEq ..).mp hl
      rw [foldl_catAdd]
      simp [catInit]
  · intro rs r v hv hneg
    rw [fyTotal_eq, fyTotal_eq, List.filter_append]
    simp [amountOf, hv, abs_of_neg hneg]

/-- C9 witness: appending a concrete negative-amount record raises its
year total by the magnitude of the amount. -/
theorem summary_totals_use_abs_witness :
    ((alookup (by_fy ([] ++ [rEx2])) (fyKey rEx2)).getD fyInit).total =
      ((alookup (by_fy ([] : List Record)) (fyKey rEx2)).getD fyInit).total + (-(-50)) :=
  (summary_totals_use_abs []).2.2 [] rEx2 (-50) rfl (by norm_num)

/-- C10: a parsed document without a results key loads as the empty
list, whereupon the seven CSV files carry only their header rows and the
returned statistics are all zero. -/
theorem load_json_missing_results (doc : JsonDoc) (c d : String)
    (h : doc.results = none) :
    load_json doc = [] ∧
    (generate_csv_reports (load_json doc) c d).files.map Prod.snd =
      [[masterHeader], [hvHeader], [rndHeader], [reviewHeader], [reviewHeader],
       [fyHeader], [catHeader]] ∧
    (generate_csv_reports (load_json doc) c d).stats =
      { total_transactions := 0, high_value := 0, rnd_candidates := 0
        fbt_issues := 0, div7a_issues := 0 } := by
  have hl : load_json doc = [] := by rw [load_json, h]; rfl
  refine ⟨hl, ?_, ?_⟩ <;> rw [hl] <;> rfl

/-- C10 witness: the concrete no-results document loads as the empty
list and yields header-only files. -/
theorem load_json_missing_results_witness :
    load_json ⟨none⟩ = [] ∧
    (generate_csv_reports (load_json ⟨none⟩) "DRQ" "out").stats =
      { total_transactions := 0, high_value := 0, rnd_candidates := 0
        fbt_issues := 0, div7a_issues := 0 } :=
  ⟨(load_json_missing_results ⟨none⟩ "DRQ" "out" rfl).1,
   (load_json_missing_results ⟨none⟩ "DRQ" "out" rfl).2.2⟩

end ATO
